import Mathlib

/-!
Verification of the e-ink picture-frame server (`src/server.py`).

The stateful core of the program is embedded shallowly:
* the module-level globals (`image_files`, `current_image_index`,
  `cycling_enabled`, the cycle thread, and the set of files on disk)
  become the structure `FrameState`;
* each HTTP handler / background-loop body becomes a pure state
  transformer;
* Python float division in `resize_and_crop_image` is modelled with
  exact rationals, and Python `int()` truncation with `pyInt`.
-/

namespace PicFrame

/-- Name of the stored full-resolution artifact for an upload whose
`datetime.now().strftime` timestamp string is `ts`
(source: `filename = f"image_{timestamp}.jpg"`). -/
def imageName (ts : String) : String := "image_" ++ ts ++ ".jpg"

/-- Thumbnail artifact name (source: `thumb_path = thumb_dir / f"thumb_{image_path.name}"`). -/
def thumbName (name : String) : String := "thumb_" ++ name

/-- The module-level mutable state of `server.py`:
`image_files`, `current_image_index`, `cycling_enabled`, the number of
live cycling loops (`cycle_thread` liveness), the set of files on disk
under the managed directory, and a cumulative count of `display_image`
calls (renders). -/
structure FrameState where
  image_files : List String
  current_image_index : Nat
  cycling_enabled : Bool
  threads : Nat
  disk : Finset String
  renders : Nat
deriving DecidableEq

/-- State at module initialisation:
`current_image_index = 0`, `image_files = []`, `cycling_enabled = True`,
no cycle thread yet. -/
def initState : FrameState :=
  { image_files := []
    current_image_index := 0
    cycling_enabled := true
    threads := 0
    disk := ∅
    renders := 0 }

/-- Effect of one successful upload (`upload_image` lines 216-239) on the
collection: `image_files.append(filepath)` followed by
`if len(image_files) > CONFIG["max_images"]: image_files.pop(0)`. -/
def insert_image (max : Nat) (l : List String) (x : String) : List String :=
  if max < (l ++ [x]).length then (l ++ [x]).tail else l ++ [x]

/-- `insert_image` folded over a sequence of inserts. -/
def insertAll (max : Nat) (l : List String) (xs : List String) : List String :=
  xs.foldl (insert_image max) l

/-- Full effect of the success path of `upload_image` on the state:
save the JPEG, append to `image_files`, create the thumbnail (a no-op when
it already exists), evict the oldest entry (deleting both of its
artifacts; the thumbnail deletion is guarded by an existence check, so it
is set-erase either way) when the bound is exceeded, and render the new
image once. -/
def apply_upload (max : Nat) (s : FrameState) (ts : String) : FrameState :=
  if max < (s.image_files ++ [imageName ts]).length then
    { s with
      image_files := (s.image_files ++ [imageName ts]).tail
      disk := ((insert (thumbName (imageName ts)) (insert (imageName ts) s.disk)).erase
                ((s.image_files ++ [imageName ts]).headD "")).erase
              (thumbName ((s.image_files ++ [imageName ts]).headD ""))
      renders := s.renders + 1 }
  else
    { s with
      image_files := s.image_files ++ [imageName ts]
      disk := insert (thumbName (imageName ts)) (insert (imageName ts) s.disk)
      renders := s.renders + 1 }

/-- Runtime operations on the shared state: one elapsed cycle interval,
a successful upload stamped `ts`, and the `/api/cycle/{start,stop}`
handlers. -/
inductive ROp
  | tick
  | upload (ts : String)
  | cycleStart
  | cycleStop
deriving DecidableEq

/-- One step of the shared state.
`tick`: body of the `while cycling_enabled` loop in `cycle_images` as
observed at one elapsed interval — a live loop that sees the flag down
exits; a live loop that sees it up renders the image at the cursor and
advances it (each live loop once per interval).
`cycleStart`: `control_cycling("start")` — set the flag, then
`start_cycling` spawns a thread only when none is alive.
`cycleStop`: `control_cycling("stop")` — clear the flag only. -/
def apply_rop (max : Nat) (s : FrameState) : ROp → FrameState
  | ROp.tick =>
      if s.threads = 0 then s
      else if s.cycling_enabled then
        if s.image_files.isEmpty then s
        else
          { s with
            renders := s.renders + s.threads
            current_image_index :=
              (s.current_image_index + s.threads) % s.image_files.length }
      else { s with threads := 0 }
  | ROp.upload ts => apply_upload max s ts
  | ROp.cycleStart =>
      { s with
        cycling_enabled := true
        threads := if s.threads = 0 then 1 else s.threads }
  | ROp.cycleStop => { s with cycling_enabled := false }

/-- A sequence of runtime operations. -/
def apply_rops (max : Nat) (s : FrameState) (ops : List ROp) : FrameState :=
  ops.foldl (apply_rop max) s

/-- What one pass of the `cycle_images` loop body displays:
nothing when the collection is empty, otherwise the image at the
pre-advance cursor (`image_files[current_image_index]`). -/
def tick_render (s : FrameState) : Option String :=
  if s.image_files.isEmpty then none
  else s.image_files.get? s.current_image_index

/-- `load_existing_images`: the (mtime-sorted) scan result truncated by
the Python slice `[-max:]`, thumbnails ensured for each survivor, and
the first image rendered when the list is non-empty.  The slice keeps
the whole list when `max = 0` (Python `[-0:]` is `[0:]`). -/
def load_existing (max : Nat) (s : FrameState) (found : List String) : FrameState :=
  { s with
    image_files := if max = 0 then found else found.drop (found.length - max)
    disk := s.disk ∪
      ((if max = 0 then found else found.drop (found.length - max)).map thumbName).toFinset
    renders :=
      if (if max = 0 then found else found.drop (found.length - max)) = []
      then s.renders else s.renders + 1 }

/-! ### Bounded collection with eviction (C1) -/

theorem insert_image_eq_tail (max : Nat) (l : List String) (x : String)
    (h : max < (l ++ [x]).length) : insert_image max l x = (l ++ [x]).tail := by
  unfold insert_image
  rw [if_pos h]

theorem insert_image_eq_append (max : Nat) (l : List String) (x : String)
    (h : ¬ max < (l ++ [x]).length) : insert_image max l x = l ++ [x] := by
  unfold insert_image
  rw [if_neg h]

theorem insert_image_length_le (max : Nat) (l : List String) (x : String)
    (hl : l.length ≤ max) : (insert_image max l x).length ≤ max := by
  unfold insert_image
  split <;> simp_all

theorem insertAll_length_le (max : Nat) :
    ∀ (xs l : List String), l.length ≤ max → (insertAll max l xs).length ≤ max := by
  intro xs
  induction xs with
  | nil => intro l hl; simpa [insertAll] using hl
  | cons x xs ih =>
      intro l hl
      simpa [insertAll, List.foldl_cons] using
        ih (insert_image max l x) (insert_image_length_le max l x hl)

theorem insertAll_closed_form (max : Nat) :
    ∀ (xs l : List String), l.length ≤ max →
      insertAll max l xs = (l ++ xs).drop (l.length + xs.length - max) := by
  intro xs
  induction xs with
  | nil =>
      intro l hl
      have h0 : l.length - max = 0 := by omega
      simp [insertAll, h0]
  | cons x xs ih =>
      intro l hl
      have hstep : insertAll max l (x :: xs) = insertAll max (insert_image max l x) xs := by
        simp [insertAll, List.foldl_cons]
      rw [hstep]
      by_cases h : max < (l ++ [x]).length
      · have hlen : l.length = max := by
          simp only [List.length_append, List.length_cons, List.length_nil] at h
          omega
        rw [insert_image_eq_tail max l x h]
        cases l with
        | nil =>
            have hmax0 : max = 0 := by simpa using hlen.symm
            subst hmax0
            rw [show (([] : List String) ++ [x]).tail = [] from rfl]
            rw [ih [] (by simp)]
            simp
        | cons a t =>
            have htail : ((a :: t) ++ [x]).tail = t ++ [x] := by simp
            have htl : (t ++ [x]).length ≤ max := by
              simp at hlen ⊢; omega
            rw [htail, ih (t ++ [x]) htl]
            have hidx1 : (t ++ [x]).length + xs.length - max = xs.length := by
              simp at hlen ⊢; omega
            have hidx2 : (a :: t).length + (x :: xs).length - max = xs.length + 1 := by
              simp at hlen ⊢; omega
            rw [hidx1, hidx2]
            simp [List.append_assoc]
      · rw [insert_image_eq_append max l x h]
        have hle : (l ++ [x]).length ≤ max := by
          simp at h ⊢; omega
        rw [ih (l ++ [x]) hle]
        have hidx : (l ++ [x]).length + xs.length - max
            = l.length + (x :: xs).length - max := by simp; omega
        rw [hidx]
        simp [List.append_assoc]

theorem apply_upload_image_files (max : Nat) (s : FrameState) (ts : String) :
    (apply_upload max s ts).image_files = insert_image max s.image_files (imageName ts) := by
  unfold apply_upload insert_image
  split <;> rfl

theorem apply_rops_upload (max : Nat) (tss : List String) (s : FrameState) :
    (apply_rops max s (tss.map ROp.upload)).image_files
      = insertAll max s.image_files (tss.map imageName) := by
  induction tss generalizing s with
  | nil => rfl
  | cons t ts ih =>
      have h1 : apply_rops max s ((t :: ts).map ROp.upload)
          = apply_rops max (apply_upload max s t) (ts.map ROp.upload) := by
        simp [apply_rops, List.foldl_cons, apply_rop]
      rw [h1, ih (apply_upload max s t)]
      have h2 : insertAll max s.image_files ((t :: ts).map imageName)
          = insertAll max (insert_image max s.image_files (imageName t)) (ts.map imageName) := by
        simp [insertAll, List.foldl_cons]
      rw [h2, apply_upload_image_files]

/-- C1: for every sequence of N successful uploads with N greater than the
configured `max_images`, starting from any state whose collection is within
the bound, the collection length after each upload never exceeds
`max_images`, and the surviving elements are exactly the identifiers of the
most recent `max_images` uploads, in insertion order (oldest first). -/
theorem C1_bounded_eviction (max : Nat) (s : FrameState) (tss : List String)
    (_hmax : 0 < max) (hl : s.image_files.length ≤ max) (hN : max < tss.length) :
    (∀ n : Nat,
        (apply_rops max s ((tss.take n).map ROp.upload)).image_files.length ≤ max) ∧
    (apply_rops max s (tss.map ROp.upload)).image_files
      = (tss.map imageName).drop (tss.length - max) := by
  constructor
  · intro n
    rw [apply_rops_upload]
    exact insertAll_length_le max ((tss.take n).map imageName) s.image_files hl
  · rw [apply_rops_upload, insertAll_closed_form max (tss.map imageName) s.image_files hl]
    have hidx : s.image_files.length + (tss.map imageName).length - max
        = s.image_files.length + (tss.length - max) := by
      simp; omega
    rw [hidx, List.drop_append]

/-- Witness for C1 at `max_images = 2` and three uploads. -/
theorem C1_bounded_eviction_witness :
    (apply_rops 2 initState (["a", "b", "c"].map ROp.upload)).image_files
      = (["a", "b", "c"].map imageName).drop (["a", "b", "c"].length - 2) :=
  (C1_bounded_eviction 2 initState ["a", "b", "c"] (by decide) (by decide) (by decide)).2

/-! ### Configuration updates (C2) -/

/-- The tunable fields of the module-level `CONFIG` dict
(`max_images`, `cycle_interval`, `saturation`; the fixed
`display_size` pair is carried separately by `resize_and_crop_image`'s
arguments). -/
structure Config where
  max_images : Nat
  cycle_interval : Nat
  saturation : ℚ
deriving DecidableEq

/-- The initial `CONFIG` values (`max_images = 10`, `cycle_interval = 600`,
`saturation = 0.5`). -/
def defaultConfig : Config :=
  { max_images := 10, cycle_interval := 600, saturation := 1/2 }

/-- A partial mapping posted to `/api/config` (the recognized fields). -/
structure ConfigPatch where
  max_images : Option Nat
  cycle_interval : Option Nat
  saturation : Option ℚ
deriving DecidableEq

/-- Result of the `update_config` handler: the new in-memory `CONFIG`,
the contents written to `config.json`, and the response message. -/
structure UpdateResult where
  stored : Config
  persisted : Config
  message : String
deriving DecidableEq

/-- `update_config` (`POST /api/config`): `CONFIG.update(config)` followed by
`json.dump(CONFIG, f)` — fields present in the posted mapping overwrite the
stored values unconditionally, the merged result is persisted, and the
handler answers with a success message.  There is no validation step. -/
def update_config (c : Config) (p : ConfigPatch) : UpdateResult :=
  { stored :=
      { max_images := p.max_images.getD c.max_images
        cycle_interval := p.cycle_interval.getD c.cycle_interval
        saturation := p.saturation.getD c.saturation }
    persisted :=
      { max_images := p.max_images.getD c.max_images
        cycle_interval := p.cycle_interval.getD c.cycle_interval
        saturation := p.saturation.getD c.saturation }
    message := "Configuration updated" }

/-- Counterexample to C2: posting `{"saturation": 1.5}` does NOT fail — the
handler answers with the success message and the stored saturation becomes
1.5, so the prior stored configuration is not left unchanged. -/
theorem C2_no_validation_counterexample :
    (update_config defaultConfig
        { max_images := none, cycle_interval := none, saturation := some (3/2) }).stored.saturation
        = 3/2 ∧
    defaultConfig.saturation = 1/2 ∧
    (update_config defaultConfig
        { max_images := none, cycle_interval := none, saturation := some (3/2) }).message
        = "Configuration updated" := by
  refine ⟨rfl, rfl, rfl⟩

/-- C2 amended: a config update performs no validation — every posted field,
in range or not, unconditionally overwrites the stored value, the merged
configuration is persisted as written, and the handler reports success. -/
theorem C2_amended_unvalidated_merge (c : Config) (p : ConfigPatch) :
    (update_config c p).stored.max_images = p.max_images.getD c.max_images ∧
    (update_config c p).stored.cycle_interval = p.cycle_interval.getD c.cycle_interval ∧
    (update_config c p).stored.saturation = p.saturation.getD c.saturation ∧
    (update_config c p).persisted = (update_config c p).stored ∧
    (update_config c p).message = "Configuration updated" := by
  refine ⟨rfl, rfl, rfl, rfl, rfl⟩

/-! ### Cycling ticks (C3, C4) -/

theorem tick_running (max : Nat) (s : FrameState)
    (hth : s.threads = 1) (hen : s.cycling_enabled = true) (hne : s.image_files ≠ []) :
    apply_rop max s ROp.tick
      = { s with
          renders := s.renders + 1
          current_image_index := (s.current_image_index + 1) % s.image_files.length } := by
  unfold apply_rop
  rw [if_neg (by simp [hth]), if_pos hen, if_neg (by simp [hne]), hth]

theorem tick_iter_shape (max : Nat) (s : FrameState) (K : Nat)
    (hth : s.threads = 1) (hen : s.cycling_enabled = true) (hne : s.image_files ≠ []) :
    ((fun t => apply_rop max t ROp.tick)^[K] s).renders = s.renders + K ∧
    ((fun t => apply_rop max t ROp.tick)^[K] s).image_files = s.image_files ∧
    ((fun t => apply_rop max t ROp.tick)^[K] s).threads = 1 ∧
    ((fun t => apply_rop max t ROp.tick)^[K] s).cycling_enabled = true := by
  induction K with
  | zero => exact ⟨rfl, rfl, hth, hen⟩
  | succ k ih =>
      obtain ⟨hr, hf, ht, he⟩ := ih
      rw [Function.iterate_succ_apply', tick_running max _ ht he (by rw [hf]; exact hne)]
      exact ⟨by simp [hr, Nat.add_assoc], by simp [hf], by simp [ht], by simp [he]⟩

theorem tick_iter_cursor (max : Nat) (s : FrameState) (K : Nat)
    (hth : s.threads = 1) (hen : s.cycling_enabled = true) (hne : s.image_files ≠ [])
    (hc : s.current_image_index < s.image_files.length) :
    ((fun t => apply_rop max t ROp.tick)^[K] s).current_image_index
      = (s.current_image_index + K) % s.image_files.length := by
  induction K with
  | zero => simp [Nat.mod_eq_of_lt hc]
  | succ k ih =>
      obtain ⟨hr, hf, ht, he⟩ := tick_iter_shape max s k hth hen hne
      rw [Function.iterate_succ_apply', tick_running max _ ht he (by rw [hf]; exact hne)]
      show (((fun t => apply_rop max t ROp.tick)^[k] s).current_image_index + 1)
          % ((fun t => apply_rop max t ROp.tick)^[k] s).image_files.length = _
      rw [ih, hf, Nat.mod_add_mod, Nat.add_assoc]

/-- C3: on a non-empty collection of length L with cursor `c < L` and the
cycler running (flag up, one live loop), after K elapsed intervals the
cursor equals `(c + K) mod L` and the collection is unchanged; the k-th
tick renders the image at the pre-advance cursor `(c + k) mod L`; and a
tick on an empty collection renders nothing and leaves the cursor, the
collection and the render count unchanged. -/
theorem C3_tick_cursor_advance (max K : Nat) (s : FrameState)
    (hth : s.threads = 1) (hen : s.cycling_enabled = true)
    (hne : s.image_files ≠ []) (hc : s.current_image_index < s.image_files.length) :
    (((fun t => apply_rop max t ROp.tick)^[K] s).current_image_index
        = (s.current_image_index + K) % s.image_files.length) ∧
    (((fun t => apply_rop max t ROp.tick)^[K] s).image_files = s.image_files) ∧
    (∀ k : Nat, tick_render ((fun t => apply_rop max t ROp.tick)^[k] s)
        = s.image_files.get? ((s.current_image_index + k) % s.image_files.length)) ∧
    (∀ t : FrameState, t.image_files = [] →
        (apply_rop max t ROp.tick).image_files = t.image_files ∧
        (apply_rop max t ROp.tick).current_image_index = t.current_image_index ∧
        (apply_rop max t ROp.tick).renders = t.renders ∧
        tick_render t = none) := by
  refine ⟨tick_iter_cursor max s K hth hen hne hc, (tick_iter_shape max s K hth hen hne).2.1,
    fun k => ?_, fun t ht => ?_⟩
  · obtain ⟨hr, hf, ht, he⟩ := tick_iter_shape max s k hth hen hne
    have hcur := tick_iter_cursor max s k hth hen hne hc
    unfold tick_render
    rw [hf, if_neg (by simp [hne]), hcur]
  · have h4 : tick_render t = none := by simp [tick_render, ht]
    by_cases h0 : t.threads = 0
    · simp [apply_rop, h0, h4]
    · by_cases h1 : t.cycling_enabled
      · simp [apply_rop, h0, h1, ht, h4]
      · simp [apply_rop, h0, h1, h4]

/-- Witness for C3: two images, cursor 0, three ticks land on index (0+3) mod 2. -/
theorem C3_tick_cursor_advance_witness :
    ((fun t => apply_rop 10 t ROp.tick)^[3]
        { image_files := ["image_a.jpg", "image_b.jpg"]
          current_image_index := 0
          cycling_enabled := true
          threads := 1
          disk := ∅
          renders := 0 }).current_image_index
      = (0 + 3) % (["image_a.jpg", "image_b.jpg"] : List String).length :=
  (C3_tick_cursor_advance 10 3
      { image_files := ["image_a.jpg", "image_b.jpg"]
        current_image_index := 0
        cycling_enabled := true
        threads := 1
        disk := ∅
        renders := 0 }
      rfl rfl (by simp) (by simp)).1

theorem tick_stopped (max : Nat) (s : FrameState) (hen : s.cycling_enabled = false) :
    (apply_rop max s ROp.tick).renders = s.renders ∧
    (apply_rop max s ROp.tick).cycling_enabled = false := by
  unfold apply_rop
  by_cases h0 : s.threads = 0
  · simp [h0, hen]
  · simp [h0, hen]

theorem tick_iter_stopped (max : Nat) (s : FrameState) (n : Nat)
    (hen : s.cycling_enabled = false) :
    ((fun t => apply_rop max t ROp.tick)^[n] s).renders = s.renders ∧
    ((fun t => apply_rop max t ROp.tick)^[n] s).cycling_enabled = false := by
  induction n with
  | zero => exact ⟨rfl, hen⟩
  | succ k ih =>
      rw [Function.iterate_succ_apply']
      obtain ⟨hr, he⟩ := ih
      obtain ⟨hr2, he2⟩ := tick_stopped max _ he
      exact ⟨hr2.trans hr, he2⟩

/-- C4: after a stop request, any number of subsequently elapsed intervals
produces zero further renders; no operation ever raises the number of live
cycling loops above one (a start while a loop is alive spawns nothing); and
after a restart on a non-empty collection exactly one render occurs per
elapsed interval. -/
theorem C4_stop_start_single_loop (max n : Nat) (s : FrameState) (hth : s.threads ≤ 1) :
    (((fun t => apply_rop max t ROp.tick)^[n] (apply_rop max s ROp.cycleStop)).renders
        = s.renders) ∧
    (∀ o : ROp, (apply_rop max s o).threads ≤ 1) ∧
    (s.image_files ≠ [] →
      ∀ k : Nat,
        ((fun t => apply_rop max t ROp.tick)^[k] (apply_rop max s ROp.cycleStart)).renders
          = s.renders + k) := by
  refine ⟨?_, ?_, ?_⟩
  · have h1 : (apply_rop max s ROp.cycleStop).cycling_enabled = false := rfl
    have h2 : (apply_rop max s ROp.cycleStop).renders = s.renders := rfl
    rw [(tick_iter_stopped max _ n h1).1, h2]
  · intro o
    cases o with
    | tick =>
        unfold apply_rop
        by_cases h0 : s.threads = 0
        · simp [h0]
        · by_cases h1 : s.cycling_enabled
          · by_cases h2 : s.image_files.isEmpty
            · simpa [h0, h1, h2] using hth
            · simpa [h0, h1, h2] using hth
          · simp [h0, h1, Nat.le_succ]
    | upload ts =>
        show (apply_upload max s ts).threads ≤ 1
        unfold apply_upload
        split <;> simpa using hth
    | cycleStart =>
        unfold apply_rop
        by_cases h0 : s.threads = 0
        · simp [h0]
        · simpa [h0] using hth
    | cycleStop => simpa [apply_rop] using hth
  · intro hne k
    have hstart_th : (apply_rop max s ROp.cycleStart).threads = 1 := by
      unfold apply_rop
      by_cases h0 : s.threads = 0
      · simp [h0]
      · simp only [h0, if_false]
        omega
    have hstart_en : (apply_rop max s ROp.cycleStart).cycling_enabled = true := rfl
    have hstart_f : (apply_rop max s ROp.cycleStart).image_files = s.image_files := rfl
    have hstart_r : (apply_rop max s ROp.cycleStart).renders = s.renders := rfl
    have hsh := (tick_iter_shape max (apply_rop max s ROp.cycleStart) k hstart_th hstart_en
      (by rw [hstart_f]; exact hne)).1
    rw [hsh, hstart_r]

/-- Witness for C4: restart on a one-image collection, two intervals, two renders. -/
theorem C4_stop_start_single_loop_witness :
    ((fun t => apply_rop 10 t ROp.tick)^[2]
        (apply_rop 10
          { image_files := ["image_a.jpg"]
            current_image_index := 0
            cycling_enabled := false
            threads := 1
            disk := ∅
            renders := 0 }
          ROp.cycleStart)).renders
      = ({ image_files := ["image_a.jpg"]
           current_image_index := 0
           cycling_enabled := false
           threads := 1
           disk := ∅
           renders := 0 } : FrameState).renders + 2 :=
  (C4_stop_start_single_loop 10 2
      { image_files := ["image_a.jpg"]
        current_image_index := 0
        cycling_enabled := false
        threads := 1
        disk := ∅
        renders := 0 }
      (by decide)).2.2 (by simp) 2

/-! ### Resize and crop (C5) -/

/-- Python `int()` applied to a rational: truncation toward zero. -/
def pyInt (q : ℚ) : Int := if q < 0 then Int.ceil q else Int.floor q

/-- The scaled dimensions chosen by `resize_and_crop_image`: with
`img_ratio = w/h` and `target_ratio = W/H`, if `img_ratio > target_ratio`
then `(int(H * img_ratio), H)`, else `(W, int(W / img_ratio))`.
Python float division is modelled exactly over ℚ. -/
def resize_dims (w h W H : Nat) : Nat × Nat :=
  if (W : ℚ) / (H : ℚ) < (w : ℚ) / (h : ℚ) then
    ((pyInt ((H : ℚ) * ((w : ℚ) / (h : ℚ)))).toNat, H)
  else
    (W, (pyInt ((W : ℚ) / ((w : ℚ) / (h : ℚ)))).toNat)

/-- The center-crop box `(left, top, left + W, top + H)` computed from the
scaled dimensions, with Python `//` floor division. -/
structure CropBox where
  left : Int
  top : Int
  right : Int
  bottom : Int
deriving DecidableEq

def crop_box (nw nh W H : Nat) : CropBox :=
  { left := Int.ediv ((nw : Int) - (W : Int)) 2
    top := Int.ediv ((nh : Int) - (H : Int)) 2
    right := Int.ediv ((nw : Int) - (W : Int)) 2 + (W : Int)
    bottom := Int.ediv ((nh : Int) - (H : Int)) 2 + (H : Int) }

/-- The pixel dimensions of `image.crop((left, top, right, bottom))`:
PIL's crop always returns a `(right - left) × (bottom - top)` image. -/
def crop_size (b : CropBox) : Int × Int := (b.right - b.left, b.bottom - b.top)

/-- Output dimensions of the whole `resize_and_crop_image` pipeline. -/
def resize_and_crop_out (w h W H : Nat) : Int × Int :=
  crop_size (crop_box (resize_dims w h W H).1 (resize_dims w h W H).2 W H)

theorem resize_dims_ge (w h W H : Nat)
    (hw : 0 < w) (hh : 0 < h) (hW : 0 < W) (hH : 0 < H) :
    W ≤ (resize_dims w h W H).1 ∧ H ≤ (resize_dims w h W H).2 := by
  have hhq : (0 : ℚ) < (h : ℚ) := by exact_mod_cast hh
  have hwq : (0 : ℚ) < (w : ℚ) := by exact_mod_cast hw
  have hHq : (0 : ℚ) < (H : ℚ) := by exact_mod_cast hH
  unfold resize_dims
  by_cases hr : (W : ℚ) / (H : ℚ) < (w : ℚ) / (h : ℚ)
  · rw [if_pos hr]
    refine ⟨?_, le_refl H⟩
    have hq : (W : ℚ) ≤ (H : ℚ) * ((w : ℚ) / (h : ℚ)) := by
      have hr2 : (W : ℚ) * (h : ℚ) < (w : ℚ) * (H : ℚ) := (div_lt_div_iff₀ hHq hhq).mp hr
      rw [← mul_div_assoc, le_div_iff₀ hhq, mul_comm (H : ℚ) (w : ℚ)]
      exact le_of_lt hr2
    have hq0 : (0 : ℚ) ≤ (H : ℚ) * ((w : ℚ) / (h : ℚ)) :=
      le_trans (by positivity) hq
    have hfloor : (W : Int) ≤ Int.floor ((H : ℚ) * ((w : ℚ) / (h : ℚ))) :=
      Int.le_floor.mpr (by exact_mod_cast hq)
    have hpy : pyInt ((H : ℚ) * ((w : ℚ) / (h : ℚ)))
        = Int.floor ((H : ℚ) * ((w : ℚ) / (h : ℚ))) := by
      unfold pyInt
      rw [if_neg (not_lt.mpr hq0)]
    rw [hpy]
    omega
  · rw [if_neg hr]
    refine ⟨le_refl W, ?_⟩
    have hle : (w : ℚ) / (h : ℚ) ≤ (W : ℚ) / (H : ℚ) := not_lt.mp hr
    have hrpos : (0 : ℚ) < (w : ℚ) / (h : ℚ) := by positivity
    have hq : (H : ℚ) ≤ (W : ℚ) / ((w : ℚ) / (h : ℚ)) := by
      have hle2 : (w : ℚ) * (H : ℚ) ≤ (W : ℚ) * (h : ℚ) := (div_le_div_iff₀ hhq hHq).mp hle
      rw [le_div_iff₀ hrpos, ← mul_div_assoc, div_le_iff₀ hhq, mul_comm (H : ℚ) (w : ℚ)]
      exact hle2
    have hq0 : (0 : ℚ) ≤ (W : ℚ) / ((w : ℚ) / (h : ℚ)) :=
      le_trans (by positivity) hq
    have hfloor : (H : Int) ≤ Int.floor ((W : ℚ) / ((w : ℚ) / (h : ℚ))) :=
      Int.le_floor.mpr (by exact_mod_cast hq)
    have hpy : pyInt ((W : ℚ) / ((w : ℚ) / (h : ℚ)))
        = Int.floor ((W : ℚ) / ((w : ℚ) / (h : ℚ))) := by
      unfold pyInt
      rw [if_neg (not_lt.mpr hq0)]
    rw [hpy]
    omega

/-- C5: for every positive source size `(w, h)` and target `(W, H)`, the
pipeline scales so that the height matches when `w/h > W/H` and so that the
width matches otherwise, and the final center crop measures exactly
`W × H` and lies entirely inside the scaled image. -/
theorem C5_resize_crop_exact (w h W H : Nat)
    (hw : 0 < w) (hh : 0 < h) (hW : 0 < W) (hH : 0 < H) :
    resize_and_crop_out w h W H = ((W : Int), (H : Int)) ∧
    (((W : ℚ) / (H : ℚ) < (w : ℚ) / (h : ℚ) → (resize_dims w h W H).2 = H) ∧
     (¬ (W : ℚ) / (H : ℚ) < (w : ℚ) / (h : ℚ) → (resize_dims w h W H).1 = W)) ∧
    (0 ≤ (crop_box (resize_dims w h W H).1 (resize_dims w h W H).2 W H).left ∧
     (crop_box (resize_dims w h W H).1 (resize_dims w h W H).2 W H).right
        ≤ ((resize_dims w h W H).1 : Int) ∧
     0 ≤ (crop_box (resize_dims w h W H).1 (resize_dims w h W H).2 W H).top ∧
     (crop_box (resize_dims w h W H).1 (resize_dims w h W H).2 W H).bottom
        ≤ ((resize_dims w h W H).2 : Int)) := by
  obtain ⟨hnw, hnh⟩ := resize_dims_ge w h W H hw hh hW hH
  refine ⟨?_, ⟨fun hr => by simp [resize_dims, hr], fun hr => by simp [resize_dims, hr]⟩, ?_⟩
  · unfold resize_and_crop_out crop_size crop_box
    simp only [Prod.mk.injEq]
    exact ⟨by ring, by ring⟩
  · set nw := (resize_dims w h W H).1 with hnwdef
    set nh := (resize_dims w h W H).2 with hnhdef
    unfold crop_box
    simp only
    have hl0 : (0 : Int) ≤ Int.ediv ((nw : Int) - (W : Int)) 2 :=
      Int.ediv_nonneg (by omega) (by omega)
    have hl1 : Int.ediv ((nw : Int) - (W : Int)) 2 ≤ (nw : Int) - (W : Int) :=
      Int.ediv_le_self 2 (by omega)
    have ht0 : (0 : Int) ≤ Int.ediv ((nh : Int) - (H : Int)) 2 :=
      Int.ediv_nonneg (by omega) (by omega)
    have ht1 : Int.ediv ((nh : Int) - (H : Int)) 2 ≤ (nh : Int) - (H : Int) :=
      Int.ediv_le_self 2 (by omega)
    exact ⟨hl0, by omega, ht0, by omega⟩

/-- Witness for C5 at a 4:3 source scaled to the 800 × 480 display. -/
theorem C5_resize_crop_exact_witness :
    resize_and_crop_out 1024 768 800 480 = ((800 : Int), (480 : Int)) :=
  (C5_resize_crop_exact 1024 768 800 480
      (by decide) (by decide) (by decide) (by decide)).1

/-! ### Cursor range invariant (C6) -/

/-- The cursor-range invariant: in range when the collection is non-empty,
pinned at its initial value 0 while the collection is empty. -/
def CursorInv (s : FrameState) : Prop :=
  s.current_image_index < s.image_files.length ∨
  (s.image_files = [] ∧ s.current_image_index = 0)

theorem cursorInv_upload (max : Nat) (s : FrameState) (ts : String)
    (h : CursorInv s) : CursorInv (apply_upload max s ts) := by
  have hf := apply_upload_image_files max s ts
  have hc : (apply_upload max s ts).current_image_index = s.current_image_index := by
    unfold apply_upload
    split <;> rfl
  cases h with
  | inl h1 =>
      left
      rw [hf, hc]
      unfold insert_image
      split
      · simp only [List.length_tail, List.length_append, List.length_cons, List.length_nil]
        omega
      · simp only [List.length_append, List.length_cons, List.length_nil]
        omega
  | inr h2 =>
      unfold CursorInv
      rw [hf, hc, h2.1, h2.2]
      unfold insert_image
      by_cases hm : max < (([] : List String) ++ [imageName ts]).length
      · rw [if_pos hm]
        right
        exact ⟨rfl, rfl⟩
      · rw [if_neg hm]
        left
        simp

theorem cursorInv_rop (max : Nat) (s : FrameState) (o : ROp) (h : CursorInv s) :
    CursorInv (apply_rop max s o) := by
  cases o with
  | tick =>
      unfold apply_rop
      by_cases h0 : s.threads = 0
      · simpa [h0] using h
      · by_cases h1 : s.cycling_enabled
        · by_cases h2 : s.image_files.isEmpty
          · simpa [h0, h1, h2] using h
          · have hne2 : s.image_files ≠ [] := by simpa using h2
            have hlen : 0 < s.image_files.length := List.length_pos.mpr hne2
            rw [if_neg h0, if_pos h1, if_neg h2]
            left
            exact Nat.mod_lt _ hlen
        · simpa [h0, h1] using h
  | upload ts => exact cursorInv_upload max s ts h
  | cycleStart => exact h
  | cycleStop => exact h

theorem cursorInv_rops (max : Nat) (s : FrameState) (ops : List ROp) (h : CursorInv s) :
    CursorInv (apply_rops max s ops) := by
  induction ops generalizing s with
  | nil => exact h
  | cons o os ih => exact ih (apply_rop max s o) (cursorInv_rop max s o h)

theorem cursorInv_load (max : Nat) (found : List String) :
    CursorInv (load_existing max initState found) := by
  unfold CursorInv load_existing initState
  by_cases hX : (if max = 0 then found else found.drop (found.length - max)) = []
  · right
    exact ⟨hX, rfl⟩
  · left
    simpa using List.length_pos.mpr hX

/-- C6: starting from the startup load, after any sequence of runtime
operations (ticks, uploads with eviction, start/stop), whenever the image
collection is non-empty the cursor lies in `[0, len)`. -/
theorem C6_cursor_in_range (max : Nat) (found : List String) (ops : List ROp) (n : Nat)
    (hne : (apply_rops max (load_existing max initState found) (ops.take n)).image_files ≠ []) :
    (apply_rops max (load_existing max initState found) (ops.take n)).current_image_index
      < (apply_rops max (load_existing max initState found) (ops.take n)).image_files.length := by
  have h := cursorInv_rops max (load_existing max initState found) (ops.take n)
    (cursorInv_load max found)
  cases h with
  | inl h1 => exact h1
  | inr h2 => exact absurd h2.1 hne

/-- Witness for C6: one loaded image, one elapsed interval. -/
theorem C6_cursor_in_range_witness :
    (apply_rops 10 (load_existing 10 initState ["image_a.jpg"])
        ([ROp.tick].take 1)).current_image_index
      < (apply_rops 10 (load_existing 10 initState ["image_a.jpg"])
          ([ROp.tick].take 1)).image_files.length :=
  C6_cursor_in_range 10 ["image_a.jpg"] [ROp.tick] 1 (by decide)

/-! ### Identifier uniqueness (C7) -/

theorem imageName_inj : Function.Injective imageName := by
  intro a b hab
  unfold imageName at hab
  have hdata := congrArg String.data hab
  simp only [String.data_append] at hdata
  exact String.ext (List.append_cancel_left (List.append_cancel_right hdata))

/-- Counterexample to C7: the identifier is derived from a seconds-resolution
timestamp (`strftime("%Y%m%d_%H%M%S")`), so two uploads within the same
clock second receive the SAME identifier and the collection holds it twice
— the stored identifiers are not pairwise distinct. -/
theorem C7_same_second_counterexample :
    (apply_rops 10 initState
        [ROp.upload "20240101_120000", ROp.upload "20240101_120000"]).image_files
      = [imageName "20240101_120000", imageName "20240101_120000"] ∧
    ¬ (apply_rops 10 initState
        [ROp.upload "20240101_120000", ROp.upload "20240101_120000"]).image_files.Nodup := by
  refine ⟨rfl, ?_⟩
  intro hnd
  rw [show (apply_rops 10 initState
      [ROp.upload "20240101_120000", ROp.upload "20240101_120000"]).image_files
    = [imageName "20240101_120000", imageName "20240101_120000"] from rfl] at hnd
  simp [List.nodup_cons] at hnd

/-- C7 amended: the stored identifiers are pairwise distinct provided the
uploads carry pairwise distinct timestamp strings; uploads sharing a clock
second share one identifier (see the counterexample). -/
theorem C7_amended_distinct_timestamps (max : Nat) (tss : List String)
    (hnd : tss.Nodup) :
    (apply_rops max initState (tss.map ROp.upload)).image_files.Nodup := by
  rw [apply_rops_upload,
    show initState.image_files = [] from rfl,
    insertAll_closed_form max (tss.map imageName) [] (by simp)]
  exact ((hnd.map imageName_inj).sublist (List.drop_sublist _ _))

/-- Witness for the amended C7 at two distinct-timestamp uploads. -/
theorem C7_amended_distinct_timestamps_witness :
    (apply_rops 10 initState
        (["20240101_120000", "20240101_120001"].map ROp.upload)).image_files.Nodup :=
  C7_amended_distinct_timestamps 10 ["20240101_120000", "20240101_120001"] (by decide)

/-! ### Eviction deletes both artifacts (C8) -/

/-- C8: whenever an upload triggers eviction (the collection already holds
at least `max_images` elements), both the full-resolution artifact and the
thumbnail artifact of the evicted oldest element are absent from disk after
the upload completes. -/
theorem C8_eviction_deletes_artifacts (max : Nat) (s : FrameState) (ts : String)
    (hev : max < s.image_files.length + 1) :
    ((s.image_files ++ [imageName ts]).headD "") ∉ (apply_upload max s ts).disk ∧
    thumbName ((s.image_files ++ [imageName ts]).headD "")
      ∉ (apply_upload max s ts).disk := by
  have hcond : max < (s.image_files ++ [imageName ts]).length := by
    simp only [List.length_append, List.length_cons, List.length_nil]
    omega
  unfold apply_upload
  rw [if_pos hcond]
  constructor
  · intro hmem
    exact Finset.not_mem_erase _ _ (Finset.mem_of_mem_erase hmem)
  · exact Finset.not_mem_erase _ _

/-- A state holding one image (with its two artifacts on disk) used to
demonstrate eviction at `max_images = 1`. -/
def evictDemoState : FrameState :=
  { image_files := ["image_a.jpg"]
    current_image_index := 0
    cycling_enabled := true
    threads := 0
    disk := {"image_a.jpg", "thumb_image_a.jpg"}
    renders := 0 }

/-- Witness for C8: uploading into a full one-image store evicts the oldest
and removes both of its artifacts. -/
theorem C8_eviction_deletes_artifacts_witness :
    ((evictDemoState.image_files ++ [imageName "20240101_120000"]).headD "")
        ∉ (apply_upload 1 evictDemoState "20240101_120000").disk ∧
    thumbName ((evictDemoState.image_files ++ [imageName "20240101_120000"]).headD "")
        ∉ (apply_upload 1 evictDemoState "20240101_120000").disk :=
  C8_eviction_deletes_artifacts 1 evictDemoState "20240101_120000" (by decide)

/-! ### Upload error handling (C9, C10) -/

/-- The error kinds raised by `upload_image`; both are raised as
`HTTPException(status_code=400, detail=...)`. -/
inductive UploadError
  | unsupportedFormat (detail : String)
  | decodeError (detail : String)
deriving DecidableEq

/-- The HTTP status carried by each upload error. -/
def http_status : UploadError → Nat
  | UploadError.unsupportedFormat _ => 400
  | UploadError.decodeError _ => 400

/-- `file.filename.lower().endswith(('.heic', '.heif'))`, expressed on the
character sequence of the filename. -/
def isHeicName (name : String) : Bool :=
  (".heic".data.isSuffixOf (name.data.map Char.toLower)) ||
  (".heif".data.isSuffixOf (name.data.map Char.toLower))

/-- An upload request as the handler observes it: the declared filename,
whether `Image.open` succeeds on the posted bytes, the decode exception
message otherwise, and the timestamp taken at upload time. -/
structure UploadReq where
  filename : String
  decodable : Bool
  detail : String
  ts : String
deriving DecidableEq

/-- The `upload_image` handler (`POST /api/upload`): a HEIC/HEIF filename
with the plugin unavailable is rejected first; then undecodable bytes are
rejected; otherwise the success path (`apply_upload`) runs and the handler
answers with the stored filename.  Both error paths return before any
state is touched. -/
def upload_image (max : Nat) (heicSupport : Bool) (s : FrameState) (r : UploadReq) :
    FrameState × Except UploadError String :=
  if isHeicName r.filename && !heicSupport then
    (s, Except.error (UploadError.unsupportedFormat
      "HEIC files are not supported. Please install pillow-heif: pip install pillow-heif"))
  else if !r.decodable then
    (s, Except.error (UploadError.decodeError r.detail))
  else
    (apply_upload max s r.ts, Except.ok (imageName r.ts))

/-- C9: an upload fails with `unsupportedFormat` exactly when the declared
filename is HEIC/HEIF and the optional codec is unavailable; it fails with
`decodeError` exactly when the bytes cannot be decoded and the HEIC
rejection did not already fire; every upload error carries HTTP status
400. -/
theorem C9_upload_error_conditions (max : Nat) (hs : Bool) (s : FrameState) (r : UploadReq) :
    ((∃ d, (upload_image max hs s r).2 = Except.error (UploadError.unsupportedFormat d)) ↔
      (isHeicName r.filename = true ∧ hs = false)) ∧
    ((∃ d, (upload_image max hs s r).2 = Except.error (UploadError.decodeError d)) ↔
      (r.decodable = false ∧ ¬(isHeicName r.filename = true ∧ hs = false))) ∧
    (∀ e : UploadError,
      (upload_image max hs s r).2 = Except.error e → http_status e = 400) := by
  refine ⟨?_, ?_, fun e _ => by cases e <;> rfl⟩ <;>
    unfold upload_image <;>
    by_cases h1 : (isHeicName r.filename && !hs) = true
  · have hsplit : isHeicName r.filename = true ∧ hs = false := by
      simpa [Bool.and_eq_true, Bool.not_eq_true'] using h1
    rw [if_pos h1]
    exact ⟨fun _ => hsplit, fun _ => ⟨_, rfl⟩⟩
  · have hnot : ¬(isHeicName r.filename = true ∧ hs = false) := fun hc =>
      h1 (by simp [hc.1, hc.2])
    rw [if_neg h1]
    by_cases h2 : (!r.decodable) = true
    · rw [if_pos h2]
      exact ⟨fun hd => by obtain ⟨d, hd⟩ := hd; simp at hd, fun hc => absurd hc hnot⟩
    · rw [if_neg h2]
      exact ⟨fun hd => by obtain ⟨d, hd⟩ := hd; simp at hd, fun hc => absurd hc hnot⟩
  · have hsplit : isHeicName r.filename = true ∧ hs = false := by
      simpa [Bool.and_eq_true, Bool.not_eq_true'] using h1
    rw [if_pos h1]
    exact ⟨fun hd => by obtain ⟨d, hd⟩ := hd; simp at hd,
      fun hc => absurd hsplit hc.2⟩
  · have hnot : ¬(isHeicName r.filename = true ∧ hs = false) := fun hc =>
      h1 (by simp [hc.1, hc.2])
    rw [if_neg h1]
    by_cases h2 : (!r.decodable) = true
    · rw [if_pos h2]
      have hdec : r.decodable = false := by simpa using h2
      exact ⟨fun _ => ⟨hdec, hnot⟩, fun _ => ⟨_, rfl⟩⟩
    · rw [if_neg h2]
      have hdec : r.decodable = true := by simpa using h2
      exact ⟨fun hd => by obtain ⟨d, hd⟩ := hd; simp at hd,
        fun hc => absurd hc.1 (by simp [hdec])⟩

/-- Witness for C9: a `.heic` upload without the plugin yields the 400
unsupported-format error. -/
theorem C9_upload_error_conditions_witness :
    http_status (UploadError.unsupportedFormat
      "HEIC files are not supported. Please install pillow-heif: pip install pillow-heif")
      = 400 :=
  (C9_upload_error_conditions 10 false initState
      { filename := "photo.heic", decodable := true, detail := "", ts := "20240101_120000" }).2.2
    (UploadError.unsupportedFormat
      "HEIC files are not supported. Please install pillow-heif: pip install pillow-heif")
    rfl

/-- C10: an upload that fails (unsupported format or undecodable bytes)
leaves the whole state — collection, cursor, on-disk artifacts, flags and
render count — exactly as it was. -/
theorem C10_failed_upload_no_state_change (max : Nat) (hs : Bool) (s : FrameState)
    (r : UploadReq) (e : UploadError)
    (he : (upload_image max hs s r).2 = Except.error e) :
    (upload_image max hs s r).1 = s := by
  unfold upload_image at he ⊢
  by_cases h1 : (isHeicName r.filename && !hs) = true
  · rw [if_pos h1]
  · rw [if_neg h1] at he ⊢
    by_cases h2 : (!r.decodable) = true
    · rw [if_pos h2]
    · rw [if_neg h2] at he
      exact absurd he (by simp)

/-- Witness for C10: a failed decode leaves the initial state untouched. -/
theorem C10_failed_upload_no_state_change_witness :
    (upload_image 10 true initState
        { filename := "a.jpg", decodable := false
          detail := "cannot identify image file", ts := "20240101_120000" }).1
      = initState :=
  C10_failed_upload_no_state_change 10 true initState
    { filename := "a.jpg", decodable := false
      detail := "cannot identify image file", ts := "20240101_120000" }
    (UploadError.decodeError "cannot identify image file") rfl

end PicFrame
